import Mathlib

/-!
Shallow embedding of the doui terminal Docker UI (github.com/rizface/doui)
and proofs about the behaviours its specification claims.

Conventions of the embedding:
* machine state that Go mutates in place is passed and returned explicitly;
* Go `error` values are `Option String` (`none` = nil) or `Except String`;
* Go maps are lists of pairs whose order models the (unspecified) iteration
  order; goroutine completion order is modelled by an explicit arrival list;
* wall-clock times (`time.Now()`) are abstract `Nat` instants passed in;
* Go string slicing `s[:12]`, which panics when `s` is shorter, is modelled
  by an `Option`-returning function so that the panic is visible.
-/

namespace Doui

/-! ## Data model (internal/models) -/

/-- models.Container (fields not read by the embedded code paths are omitted). -/
structure Container where
  id : String
  shortID : String
  name : String
  image : String
  state : String
  networks : List String
  deriving Repr, DecidableEq

/-- models.Image (only the fields the key router reads). -/
structure Image where
  id : String
  primaryTag : String
  deriving Repr, DecidableEq

/-- models.Volume (only the fields the key router reads). -/
structure Volume where
  name : String
  deriving Repr, DecidableEq

/-- models.Network (fields read by the embedded code paths). -/
structure Network where
  id : String
  name : String
  driver : String
  containers : List String
  deriving Repr, DecidableEq

/-- models.Network.IsSystemNetwork: bridge/host/none are system networks. -/
def Network.isSystemNetwork (n : Network) : Bool :=
  n.name == "bridge" || n.name == "host" || n.name == "none"

/-- models.Group. `created`/`modified` are abstract instants. -/
structure Group where
  id : String
  name : String
  description : String
  containerIDs : List String
  created : Nat
  modified : Nat
  color : String
  deriving Repr, DecidableEq

/-- models.GroupConfig: the persisted group configuration. -/
structure GroupConfig where
  version : String
  groups : List Group
  lastModified : Nat
  deriving Repr, DecidableEq

/-- models.ViewType. -/
inductive ViewType
  | ViewContainers | ViewImages | ViewGroups | ViewVolumes | ViewCompose
  | ViewNetworks | ViewLogs | ViewStats | ViewEnvVars | ViewAbout
  deriving Repr, DecidableEq

/-- models.GroupsTabType. -/
inductive GroupsTabType
  | GroupsListTab | GroupsContainersTab | GroupsAvailableTab
  deriving Repr, DecidableEq

/-- models.NetworksTabType. -/
inductive NetworksTabType
  | NetworksListTab | NetworksContainersTab | NetworksAvailableTab
  deriving Repr, DecidableEq

/-! ## Group store (internal/models group config + internal/config/groups.go) -/

/-- GroupConfig.FindGroup: first group with the given id, nil when absent. -/
def GroupConfig.findGroup (gc : GroupConfig) (id : String) : Option Group :=
  gc.groups.find? (fun g => g.id == id)

/-- Helper for GroupConfig.UpdateGroup: replace the first group whose id matches
`updated.id` by `updated` with `modified := now`; `none` when no id matches. -/
def replaceFirstGroup (now : Nat) (updated : Group) : List Group → Option (List Group)
  | [] => none
  | g :: rest =>
    if g.id == updated.id then some ({ updated with modified := now } :: rest)
    else (replaceFirstGroup now updated rest).map (fun gs => g :: gs)

/-- GroupConfig.UpdateGroup: replaces the matching group (stamping `modified` and
`lastModified`) and reports whether a group was found. -/
def GroupConfig.updateGroup (gc : GroupConfig) (now : Nat) (updated : Group) :
    GroupConfig × Bool :=
  match replaceFirstGroup now updated gc.groups with
  | some gs => ({ gc with groups := gs, lastModified := now }, true)
  | none => (gc, false)

/-- GroupManager.AddContainerToGroup. Returns the group manager's config after the
call, whether `save()` (disk persistence) was invoked, and the returned error
(`none` = nil). `saveErr` is the outcome SaveConfig would report if called. -/
def addContainerToGroup (config : GroupConfig) (now : Nat) (saveErr : Option String)
    (groupID containerID : String) : GroupConfig × Bool × Option String :=
  match config.findGroup groupID with
  | none => (config, false, some ("group not found: " ++ groupID))
  | some group =>
    -- Check if container already in group: return nil without mutating or saving
    if containerID ∈ group.containerIDs then
      (config, false, none)
    else
      let group' := { group with
        containerIDs := group.containerIDs ++ [containerID],
        modified := now }
      match (config.updateGroup now group') with
      | (config', true) => (config', true, saveErr)
      | (_, false) => (config, false, some "failed to update group")

/-! ## Batch executor (GroupManager.ExecuteGroupOperation, internal/config/groups.go) -/

/-- Go slicing `s[:12]`: the 12-character prefix, or `none` for the runtime panic
raised when the string is shorter than 12 characters. -/
def sliceTo12 (s : String) : Option String :=
  if 12 ≤ s.length then some (s.take 12) else none

/-- Collect the failed results from the results channel in arrival order, tagging
each with `containerID[:12]` as the source does; `none` models the panic on a
short id. -/
def collectErrs : List (String × Option String) → Option (List (String × String))
  | [] => some []
  | (_, none) :: rest => collectErrs rest
  | (id, some e) :: rest =>
    match sliceTo12 id, collectErrs rest with
    | some sid, some errs => some ((sid, e) :: errs)
    | _, _ => none

/-- Outcome of ExecuteGroupOperation, keeping the aggregate error structured. -/
inductive GroupOpResult
  | panicked
  | groupNotFound (groupID : String)
  | failed (errs : List (String × String))
  | ok
  deriving Repr, DecidableEq

/-- GroupManager.ExecuteGroupOperation. One goroutine per container id runs
`operation`; `arrival` is the order the per-container results are received on
the results channel (goroutines finish in any order, so any permutation of the
group's container ids is possible). Returns the ids the operation was launched
for, and the aggregated outcome. -/
def executeGroupOperation (config : GroupConfig) (groupID : String)
    (operation : String → Option String) (arrival : List String) :
    List String × GroupOpResult :=
  match config.findGroup groupID with
  | none => ([], .groupNotFound groupID)
  | some group =>
    let launched := group.containerIDs
    let results := arrival.map (fun id => (id, operation id))
    match collectErrs results with
    | none => (launched, .panicked)
    | some [] => (launched, .ok)
    | some errs => (launched, .failed errs)

/-! ## Recreate workflow (Client.RecreateContainer, internal/docker/containers.go) -/

/-- models.NetworkEndpointConfig. -/
structure NetworkEndpointConfig where
  ipAddress : String
  aliases : List String
  networkID : String
  deriving Repr, DecidableEq

/-- models.ContainerFullConfig. `networks` is the Go map in its iteration order;
the creation/port plumbing fields that never influence control flow are
omitted. -/
structure ContainerFullConfig where
  name : String
  image : String
  env : List String
  networks : List (String × NetworkEndpointConfig)
  deriving Repr, DecidableEq

/-- Replies of the Docker daemon to the five calls RecreateContainer makes, in
the order the calls would be issued. `connectErr` is the per-network reply to
NetworkConnect; `createResult` carries the new container id on success. -/
structure RecreateOutcomes where
  stopErr : Option String
  removeErr : Option String
  createResult : Except String String
  connectErr : String → Option String
  startErr : Option String

/-- One Docker API call attempted by the recreate workflow. -/
inductive RStep
  | stop | remove | create | connect (netName : String) | start
  deriving Repr, DecidableEq

/-- Client.RecreateContainer: stop (best effort) → remove → create → connect the
remaining networks (best effort) → start. Returns the Go results
`(string, error)` together with the trace of Docker calls attempted. -/
def recreateContainer (o : RecreateOutcomes) (cfg : ContainerFullConfig) :
    (String × Option String) × List RStep :=
  -- 1. Stop the container - ignore errors as container might already be stopped
  let trace := [RStep.stop]
  -- 2. Remove the container
  let trace := trace ++ [RStep.remove]
  match o.removeErr with
  | some e => (("", some ("failed to remove old container: " ++ e)), trace)
  | none =>
    -- 3.-5. build configs; only the first network is attached at creation time
    let firstNetworkName :=
      match cfg.networks.head? with
      | some p => p.fst
      | none => ""
    -- 6. Create new container
    let trace := trace ++ [RStep.create]
    match o.createResult with
    | .error e => (("", some ("failed to create new container: " ++ e)), trace)
    | .ok newID =>
      -- 7. Connect to additional networks; a failed connect is skipped silently
      let extra := cfg.networks.filter (fun p => p.fst ≠ firstNetworkName)
      let trace := trace ++ extra.map (fun p => RStep.connect p.fst)
      -- 8. Start the container
      let trace := trace ++ [RStep.start]
      match o.startErr with
      | some e => ((newID, some ("container created but failed to start: " ++ e)), trace)
      | none => ((newID, none), trace)

/-! ## Drill-down views (GroupsView in internal/ui/views/groups.go,
NetworksView in internal/app/messages.go) -/

/-- views.GroupsView: the fields SetGroups and the key router read. The three
bubbles lists are modelled by their cursor index and filtering flag. -/
structure GroupsView where
  currentTab : GroupsTabType
  groups : List Group
  allContainers : List Container
  selectedGroup : Option Group
  groupsListIndex : Nat
  containersInGroupListIndex : Nat
  availableListIndex : Nat
  groupsListFiltering : Bool
  containersInGroupListFiltering : Bool
  availableListFiltering : Bool
  deriving Repr, DecidableEq

/-- GroupsView.SetGroups: stores the refreshed collection and rebuilds the list
items; `selectedGroup` is not re-resolved against the new collection. -/
def GroupsView.setGroups (v : GroupsView) (groups : List Group) : GroupsView :=
  { v with groups := groups }

/-- GroupsView.GetSelectedGroup. -/
def GroupsView.getSelectedGroup (v : GroupsView) : Option Group :=
  if v.groups.length = 0 ∨ v.groups.length ≤ v.groupsListIndex then none
  else v.groups.get? v.groupsListIndex

/-- GroupsView.GetContainersInGroup. -/
def GroupsView.getContainersInGroup (v : GroupsView) : List Container :=
  match v.selectedGroup with
  | none => []
  | some g => v.allContainers.filter (fun c => c.id ∈ g.containerIDs)

/-- GroupsView.GetAvailableContainers. -/
def GroupsView.getAvailableContainers (v : GroupsView) : List Container :=
  match v.selectedGroup with
  | none => []
  | some g => v.allContainers.filter (fun c => c.id ∉ g.containerIDs)

/-- GroupsView.GetSelectedInGroupContainer. -/
def GroupsView.getSelectedInGroupContainer (v : GroupsView) : Option Container :=
  let containers := v.getContainersInGroup
  if containers.length = 0 ∨ containers.length ≤ v.containersInGroupListIndex then none
  else containers.get? v.containersInGroupListIndex

/-- GroupsView.GetSelectedAvailableContainer. -/
def GroupsView.getSelectedAvailableContainer (v : GroupsView) : Option Container :=
  let containers := v.getAvailableContainers
  if containers.length = 0 ∨ containers.length ≤ v.availableListIndex then none
  else containers.get? v.availableListIndex

/-- GroupsView.IsFiltering: filter state of the active tab's list. -/
def GroupsView.isFiltering (v : GroupsView) : Bool :=
  match v.currentTab with
  | .GroupsListTab => v.groupsListFiltering
  | .GroupsContainersTab => v.containersInGroupListFiltering
  | .GroupsAvailableTab => v.availableListFiltering

/-- views.NetworksView: the fields SetNetworks, SetAllContainers and the key
router read. -/
structure NetworksView where
  currentTab : NetworksTabType
  networks : List Network
  allContainers : List Container
  selectedNetwork : Option Network
  networksListIndex : Nat
  containersInNetworkListIndex : Nat
  availableListIndex : Nat
  networksListFiltering : Bool
  containersInNetworkListFiltering : Bool
  availableListFiltering : Bool
  deriving Repr, DecidableEq

/-- The per-network refresh performed by syncNetworkContainerCounts: the
network's `containers` become the ids of the containers attached to it. -/
def syncNetworkEntry (allContainers : List Container) (n : Network) : Network :=
  { n with containers :=
      (allContainers.filter (fun c => n.name ∈ c.networks)).map (fun c => c.id) }

/-- NetworksView.syncNetworkContainerCounts: refreshes each network's
`containers` from the container data and re-points `selectedNetwork` at the
matching refreshed network when one exists (left untouched otherwise). -/
def NetworksView.syncNetworkContainerCounts (v : NetworksView) : NetworksView :=
  if v.networks.length = 0 ∨ v.allContainers.length = 0 then v
  else
    let networks := v.networks.map (syncNetworkEntry v.allContainers)
    let selectedNetwork :=
      match v.selectedNetwork with
      | none => none
      | some sel =>
        match networks.find? (fun n => n.id == sel.id) with
        | some n => some n
        | none => some sel
    { v with networks := networks, selectedNetwork := selectedNetwork }

/-- NetworksView.SetNetworks: stores the refreshed collection, syncs the
container counts, then re-resolves `selectedNetwork` by id — clearing it when
the selected network is no longer present. -/
def NetworksView.setNetworks (v : NetworksView) (networks : List Network) : NetworksView :=
  let v := { v with networks := networks }
  let v := v.syncNetworkContainerCounts
  match v.selectedNetwork with
  | none => v
  | some sel =>
    match v.networks.find? (fun n => n.id == sel.id) with
    | some n => { v with selectedNetwork := some n }
    | none => { v with selectedNetwork := none }

/-- NetworksView.GetSelectedNetwork. -/
def NetworksView.getSelectedNetwork (v : NetworksView) : Option Network :=
  if v.networks.length = 0 ∨ v.networks.length ≤ v.networksListIndex then none
  else v.networks.get? v.networksListIndex

/-- NetworksView.GetContainersInNetwork. -/
def NetworksView.getContainersInNetwork (v : NetworksView) : List Container :=
  match v.selectedNetwork with
  | none => []
  | some n => v.allContainers.filter (fun c => n.name ∈ c.networks)

/-- NetworksView.GetAvailableContainers. -/
def NetworksView.getAvailableContainers (v : NetworksView) : List Container :=
  match v.selectedNetwork with
  | none => []
  | some n => v.allContainers.filter (fun c => n.name ∉ c.networks)

/-- NetworksView.GetSelectedInNetworkContainer. -/
def NetworksView.getSelectedInNetworkContainer (v : NetworksView) : Option Container :=
  let containers := v.getContainersInNetwork
  if containers.length = 0 ∨ containers.length ≤ v.containersInNetworkListIndex then none
  else containers.get? v.containersInNetworkListIndex

/-- NetworksView.GetSelectedAvailableContainer. -/
def NetworksView.getSelectedAvailableContainer (v : NetworksView) : Option Container :=
  let containers := v.getAvailableContainers
  if containers.length = 0 ∨ containers.length ≤ v.availableListIndex then none
  else containers.get? v.availableListIndex

/-- NetworksView.IsFiltering. -/
def NetworksView.isFiltering (v : NetworksView) : Bool :=
  match v.currentTab with
  | .NetworksListTab => v.networksListFiltering
  | .NetworksContainersTab => v.containersInNetworkListFiltering
  | .NetworksAvailableTab => v.availableListFiltering

/-! ## Event-loop reducer for completion messages (App.Update, internal/app/app.go) -/

/-- Commands the reducer returns for the Bubble Tea scheduler (the subset the
embedded message cases produce). `clearStatusAfter n` is `clearStatus(n*time.Second)`,
a tick that will deliver `ClearStatusMsg`. -/
inductive Cmd
  | fetchContainers
  | fetchImages
  | loadGroups
  | clearStatusAfter (seconds : Nat)
  | tickRefresh
  | quitProgram
  deriving Repr, DecidableEq

/-- Messages of internal/app/messages.go handled (or not) by App.Update that the
claims are about. Errors are `Option String` exactly like the Go `err` fields. -/
inductive Msg
  | dockerClientReady
  | groupManagerReady (groups : List Group)
  | containersLoaded (containers : List Container)
  | groupsLoaded (groups : List Group)
  | containerStarted (containerID : String) (err : Option String)
  | containerStopped (containerID : String) (err : Option String)
  | containerRestarted (containerID : String) (err : Option String)
  | containerRemoved (containerID : String) (err : Option String)
  | clearStatus
  | errorMsg (e : String)
  | statusMsg (message : String)
  deriving Repr, DecidableEq

/-- App: the fields of the application model that the embedded message cases
read or write. -/
structure App where
  ready : Bool
  statusMessage : String
  errorMessage : String
  currentView : ViewType
  containers : List Container
  groupsView : GroupsView
  networksView : NetworksView
  deriving Repr, DecidableEq

/-- App.Update for the completion messages above. Cases without a `return` in the
source fall through to the per-view delegation, which ignores every message
embedded here (the views only react to key presses and stream items), so the
fall-through contributes nothing; in particular `ContainerRemovedMsg` has no
case at all and reaches only that delegation. Status formatting uses
`String.take 12` for Go `containerID[:12]` (defined only for ids of at least 12
characters, which Docker guarantees; the slicing happens on success paths
only). -/
def App.update (a : App) (msg : Msg) : App × List Cmd :=
  match msg with
  | .dockerClientReady => ({ a with ready := true }, [Cmd.fetchContainers])
  | .groupManagerReady groups =>
    ({ a with groupsView := a.groupsView.setGroups groups }, [])
  | .containersLoaded containers =>
    ({ a with
      containers := containers,
      groupsView := { a.groupsView with allContainers := containers },
      networksView := { a.networksView with allContainers := containers } }, [])
  | .groupsLoaded groups =>
    ({ a with groupsView := a.groupsView.setGroups groups }, [])
  | .containerStarted containerID err =>
    let a :=
      match err with
      | some e => { a with errorMessage := "Failed to start container: " ++ e }
      | none => { a with statusMessage := "Container " ++ containerID.take 12 ++ " started" }
    (a, [Cmd.fetchContainers, Cmd.clearStatusAfter 2])
  | .containerStopped containerID err =>
    let a :=
      match err with
      | some e => { a with errorMessage := "Failed to stop container: " ++ e }
      | none => { a with statusMessage := "Container " ++ containerID.take 12 ++ " stopped" }
    (a, [Cmd.fetchContainers, Cmd.clearStatusAfter 2])
  | .containerRestarted containerID err =>
    let a :=
      match err with
      | some e => { a with errorMessage := "Failed to restart container: " ++ e }
      | none => { a with statusMessage := "Container " ++ containerID.take 12 ++ " restarted" }
    (a, [Cmd.fetchContainers, Cmd.clearStatusAfter 2])
  | .containerRemoved _ _ =>
    -- no case in App.Update: the message only reaches the view delegation,
    -- and no view has a handler for it
    (a, [])
  | .clearStatus => ({ a with statusMessage := "", errorMessage := "" }, [])
  | .errorMsg e =>
    ({ a with errorMessage := e }, [Cmd.clearStatusAfter 3])
  | .statusMsg message =>
    ({ a with statusMessage := message }, [Cmd.clearStatusAfter 2])

/-- initDockerClient (app.go): wraps the result of docker.NewClient — which
fails when client creation or the connectivity ping fails — into the message the
command delivers to the reducer. -/
def initDockerClientMsg : Except String Unit → Msg
  | .error e => .errorMsg ("failed to initialize Docker client: " ++ e)
  | .ok _ => .dockerClientReady

/-- main (main.go): the process exit code as a function of tea.Program.Run's
result — 1 when Run itself returns an error, otherwise 0. -/
def mainExitCode (runErr : Option String) : Nat :=
  match runErr with
  | some _ => 1
  | none => 0

/-! ## Log subscription loop (Client.StreamLogs, waitForLogEntry, LogsView.Update,
and the logs branches of App.Update)

The producer goroutine of StreamLogs writes each decoded record to a
100-capacity data channel and errors to a 1-capacity error channel, then closes
both (its deferred closes) when the read loop ends. `waitForLogEntry` is a
command that performs a Go `select` over receives on both channels: a received
record becomes a `LogEntry` event, a receive from a closed channel yields no
event (`nil` message). On a `LogEntry` event App.Update delegates to the current
view; only LogsView re-arms a fresh wait command (logs.go:108). The scenario
modelled is the clean one of the claims: the producer emits its records and
closes without ever sending an error. -/

/-- Joint state of producer goroutine, channels, outstanding wait command and
the reducer-owned view/counters for one log subscription. -/
structure LogLoop where
  producerPending : Nat
  producerDone : Bool
  producerCancelled : Bool
  logsBuf : List String
  logsClosed : Bool
  errorBuf : List String
  errorClosed : Bool
  currentView : ViewType
  delivered : Nat
  armed : Bool
  deriving Repr, DecidableEq

/-- State right after startLogStreaming for a producer that will emit `n`
records then close cleanly: the first wait command is outstanding and the user
is on the logs view. -/
def LogLoop.init (n : Nat) : LogLoop :=
  { producerPending := n
    producerDone := false
    producerCancelled := false
    logsBuf := []
    logsClosed := false
    errorBuf := []
    errorClosed := false
    currentView := ViewType.ViewLogs
    delivered := 0
    armed := true }

/-- One interleaving step of the subscription system. The `deliver` steps are
the possible outcomes of running the outstanding `waitForLogEntry` command —
the Go `select` picks any ready receive, so a closed error channel may be taken
even while records remain buffered. Leaving the logs view (the "q"/"ctrl+c"
branch of App.Update) only switches the view: nothing cancels the stream
context (`context.Background()`) and nothing closes or drains the channels. -/
inductive LogLoopStep : LogLoop → LogLoop → Prop
  | emit (s : LogLoop) (n : Nat) (line : String) :
      s.producerPending = n + 1 → s.logsBuf.length < 100 → s.producerDone = false →
      LogLoopStep s { s with producerPending := n, logsBuf := s.logsBuf ++ [line] }
  | closeChans (s : LogLoop) :
      s.producerPending = 0 → s.producerDone = false →
      LogLoopStep s { s with producerDone := true, logsClosed := true, errorClosed := true }
  | deliverEntry (s : LogLoop) (line : String) (rest : List String) :
      s.armed = true → s.logsBuf = line :: rest →
      LogLoopStep s { s with
        logsBuf := rest,
        delivered := s.delivered + 1,
        armed := decide (s.currentView = ViewType.ViewLogs) }
  | deliverLogsClosedNil (s : LogLoop) :
      s.armed = true → s.logsBuf = [] → s.logsClosed = true →
      LogLoopStep s { s with armed := false }
  | deliverErrorClosedNil (s : LogLoop) :
      s.armed = true → s.errorBuf = [] → s.errorClosed = true →
      LogLoopStep s { s with armed := false }
  | leaveLogsView (s : LogLoop) :
      s.currentView = ViewType.ViewLogs →
      LogLoopStep s { s with currentView := ViewType.ViewContainers }

/-- The schedules in which the closure race is resolved in favour of buffered
data (the wait command takes the closed error channel only once the data
channel is empty) and the user stays on the logs view. -/
inductive LogLoopStepDP : LogLoop → LogLoop → Prop
  | emit (s : LogLoop) (n : Nat) (line : String) :
      s.producerPending = n + 1 → s.logsBuf.length < 100 → s.producerDone = false →
      LogLoopStepDP s { s with producerPending := n, logsBuf := s.logsBuf ++ [line] }
  | closeChans (s : LogLoop) :
      s.producerPending = 0 → s.producerDone = false →
      LogLoopStepDP s { s with producerDone := true, logsClosed := true, errorClosed := true }
  | deliverEntry (s : LogLoop) (line : String) (rest : List String) :
      s.armed = true → s.logsBuf = line :: rest →
      LogLoopStepDP s { s with
        logsBuf := rest,
        delivered := s.delivered + 1,
        armed := decide (s.currentView = ViewType.ViewLogs) }
  | deliverLogsClosedNil (s : LogLoop) :
      s.armed = true → s.logsBuf = [] → s.logsClosed = true →
      LogLoopStepDP s { s with armed := false }
  | deliverErrorClosedNil (s : LogLoop) :
      s.armed = true → s.errorBuf = [] → s.errorClosed = true → s.logsBuf = [] →
      LogLoopStepDP s { s with armed := false }

/-! ## Remaining view state read by the input router (internal/ui/views) -/

/-- views.ContainersView: list data, cursor and filter state. -/
structure ContainersView where
  containers : List Container
  listIndex : Nat
  filtering : Bool
  deriving Repr, DecidableEq

/-- ContainersView.GetSelectedContainer. -/
def ContainersView.getSelectedContainer (v : ContainersView) : Option Container :=
  if v.containers.length = 0 ∨ v.containers.length ≤ v.listIndex then none
  else v.containers.get? v.listIndex

/-- views.ImagesView. -/
structure ImagesView where
  images : List Image
  listIndex : Nat
  filtering : Bool
  deriving Repr, DecidableEq

/-- ImagesView.GetSelectedImage. -/
def ImagesView.getSelectedImage (v : ImagesView) : Option Image :=
  if v.images.length = 0 ∨ v.images.length ≤ v.listIndex then none
  else v.images.get? v.listIndex

/-- views.VolumesView. -/
structure VolumesView where
  volumes : List Volume
  listIndex : Nat
  filtering : Bool
  deriving Repr, DecidableEq

/-- VolumesView.GetSelectedVolume. -/
def VolumesView.getSelectedVolume (v : VolumesView) : Option Volume :=
  if v.volumes.length = 0 ∨ v.volumes.length ≤ v.listIndex then none
  else v.volumes.get? v.listIndex

/-- models.ComposeService (fields the router reads). -/
structure ComposeService where
  name : String
  containers : List Container
  deriving Repr, DecidableEq

/-- models.ComposeProject (fields the router reads). -/
structure ComposeProject where
  name : String
  services : List ComposeService
  deriving Repr, DecidableEq

/-- views.ComposeView. -/
structure ComposeView where
  projects : List ComposeProject
  selectedProject : Option ComposeProject
  selectedService : Option ComposeService
  viewingServices : Bool
  viewingContainers : Bool
  projectsListIndex : Nat
  servicesListIndex : Nat
  containersListIndex : Nat
  projectsListFiltering : Bool
  servicesListFiltering : Bool
  containersListFiltering : Bool
  deriving Repr, DecidableEq

/-- ComposeView.IsFiltering. -/
def ComposeView.isFiltering (v : ComposeView) : Bool :=
  if v.viewingContainers then v.containersListFiltering
  else if v.viewingServices then v.servicesListFiltering
  else v.projectsListFiltering

/-- ComposeView.GetSelectedProject. -/
def ComposeView.getSelectedProject (v : ComposeView) : Option ComposeProject :=
  if v.projects.length = 0 ∨ v.projects.length ≤ v.projectsListIndex then none
  else v.projects.get? v.projectsListIndex

/-- ComposeView.GetSelectedService. -/
def ComposeView.getSelectedService (v : ComposeView) : Option ComposeService :=
  match v.selectedProject with
  | none => none
  | some p =>
    if p.services.length = 0 ∨ p.services.length ≤ v.servicesListIndex then none
    else p.services.get? v.servicesListIndex

/-- ComposeView.GetSelectedContainer: the selected container when viewing a
scaled service's containers, else the single container of the selected
service. -/
def ComposeView.getSelectedContainer (v : ComposeView) : Option Container :=
  match v.viewingContainers, v.selectedService with
  | true, some service =>
    if service.containers.length = 0 ∨ service.containers.length ≤ v.containersListIndex then
      none
    else service.containers.get? v.containersListIndex
  | _, _ =>
    match v.getSelectedService with
    | some service =>
      if service.containers.length = 1 then service.containers.get? 0 else none
    | none => none

/-! ## Input router (the tea.KeyMsg branch of App.Update, internal/app/app.go) -/

/-- Keys of the global keymap switch, plus `other` for every key it does not
name (the switch default). -/
inductive Key
  | ctrlC | q | questionMark | esc
  | one | two | three | four | five | six | seven
  | tab | right | shiftTab | left
  | n | enter | u | r | s | x | l | t | e | v | ctrlS | d | p
  | other (raw : String)
  deriving Repr, DecidableEq

/-- Global action performed when a key is consumed by the global keymap. -/
inductive GlobalAction
  | quitProgram
  | streamBackToContainers
  | openAbout
  | aboutBack
  | envVarsBack
  | escToContainers
  | switchTo (view : ViewType)
  | cycleTabForward
  | cycleTabBackward
  | openCreateGroupModal
  | openCreateNetworkModal
  | addToGroup (groupID containerID : String)
  | connectToNetwork (networkID containerID : String)
  | keyConsumedNoop
  | openRemoveFromGroupModal (containerID : String)
  | openDisconnectModal (containerID : String)
  | restartContainerOp (id : String)
  | restartProjectOp (name : String)
  | startContainerOp (id : String)
  | startGroupOp (groupID : String)
  | startProjectOp (name : String)
  | stopContainerOp (id : String)
  | stopGroupOp (groupID : String)
  | stopProjectOp (name : String)
  | openLogs (id : String)
  | openStats (id : String)
  | execShell (id : String)
  | loadContainerConfig (id : String)
  | recreateOp (id : String)
  | openDeleteModal (kind id : String)
  | systemNetworkDeleteError
  | openPullImageModal
  | openPruneVolumesModal
  deriving Repr, DecidableEq

/-- The sub-handler a key event is handed to: the modal, the filtering view's
filter widget, the global keymap, or the current view's nested handler. -/
inductive Invocation
  | modalUpdate
  | filterForward (view : ViewType)
  | globalAction (action : GlobalAction)
  | viewDelegate (view : ViewType)
  deriving Repr, DecidableEq

/-- The application state the tea.KeyMsg branch reads to route a key. -/
structure RouterApp where
  modalVisible : Bool
  currentView : ViewType
  previousView : ViewType
  containersView : ContainersView
  imagesView : ImagesView
  groupsView : GroupsView
  volumesView : VolumesView
  composeView : ComposeView
  networksView : NetworksView
  envVarsEditing : Bool
  envVarsModified : Bool
  pendingEnvContainer : Option ContainerFullConfig
  selectedContainer : Option Container
  deriving Repr, DecidableEq

/-- The filter-mode guard of App.Update: the current view is one of the six
filterable views and its active list is filtering. -/
def activeViewFiltering (a : RouterApp) : Bool :=
  match a.currentView with
  | .ViewContainers => a.containersView.filtering
  | .ViewImages => a.imagesView.filtering
  | .ViewGroups => a.groupsView.isFiltering
  | .ViewVolumes => a.volumesView.filtering
  | .ViewCompose => a.composeView.isFiltering
  | .ViewNetworks => a.networksView.isFiltering
  | _ => false

/-- The tab-cycling guard: the views listed in the "tab"/"shift+tab" cases. -/
def isMainTabView (v : ViewType) : Bool :=
  match v with
  | .ViewContainers | .ViewImages | .ViewGroups | .ViewVolumes
  | .ViewCompose | .ViewNetworks | .ViewAbout => true
  | _ => false

/-- Singleton global-action invocation list. -/
def gact (g : GlobalAction) : List Invocation :=
  [Invocation.globalAction g]

/-- The trailing "Delegate to current view" switch of App.Update. It enumerates
the nine views other than ViewAbout; with the About view active a key that
reaches it is dropped without being handed to any view. -/
def delegateToCurrentView (a : RouterApp) : List Invocation :=
  match a.currentView with
  | .ViewAbout => []
  | cv => [Invocation.viewDelegate cv]

/-- The "ctrl+c"/"q" case: leave a full-screen view, otherwise quit. -/
def routeQuitKey (a : RouterApp) : List Invocation :=
  if a.currentView = .ViewLogs ∨ a.currentView = .ViewStats ∨ a.currentView = .ViewAbout then
    gact .streamBackToContainers
  else gact .quitProgram

/-- The "esc" case. -/
def routeEscKey (a : RouterApp) : List Invocation :=
  if a.currentView = .ViewAbout then gact .aboutBack
  else if a.currentView = .ViewEnvVars then
    if a.envVarsEditing then [Invocation.viewDelegate .ViewEnvVars]
    else gact .envVarsBack
  else if a.currentView = .ViewCompose ∧
      (a.composeView.viewingServices ∨ a.composeView.viewingContainers) then
    [Invocation.viewDelegate .ViewCompose]
  else if a.currentView ≠ .ViewContainers then gact .escToContainers
  else delegateToCurrentView a

/-- The "tab"/"right" and "shift+tab"/"left" cases. -/
def routeCycleKey (a : RouterApp) (forward : Bool) : List Invocation :=
  if isMainTabView a.currentView then
    if forward then gact .cycleTabForward else gact .cycleTabBackward
  else delegateToCurrentView a

/-- The "n" case: create group / create network. -/
def routeNewKey (a : RouterApp) : List Invocation :=
  if a.currentView = .ViewGroups ∧ a.groupsView.currentTab = .GroupsListTab then
    gact .openCreateGroupModal
  else if a.currentView = .ViewNetworks ∧
      a.networksView.currentTab = .NetworksListTab then
    gact .openCreateNetworkModal
  else delegateToCurrentView a

/-- The "enter" case: add to group / connect to network on the Available tabs. -/
def routeEnterKey (a : RouterApp) : List Invocation :=
  if a.currentView = .ViewGroups ∧ a.groupsView.currentTab = .GroupsAvailableTab then
    match a.groupsView.getSelectedAvailableContainer, a.groupsView.selectedGroup with
    | some c, some g => gact (.addToGroup g.id c.id)
    | _, _ => gact .keyConsumedNoop
  else if a.currentView = .ViewNetworks ∧
      a.networksView.currentTab = .NetworksAvailableTab then
    match a.networksView.getSelectedAvailableContainer, a.networksView.selectedNetwork with
    | some c, some net =>
      if net.isSystemNetwork then gact .keyConsumedNoop
      else gact (.connectToNetwork net.id c.id)
    | _, _ => gact .keyConsumedNoop
  else delegateToCurrentView a

/-- The "u" case: unlink from group / disconnect from network. -/
def routeUnlinkKey (a : RouterApp) : List Invocation :=
  if a.currentView = .ViewGroups ∧ a.groupsView.currentTab = .GroupsContainersTab then
    match a.groupsView.getSelectedInGroupContainer, a.groupsView.selectedGroup with
    | some c, some _ => gact (.openRemoveFromGroupModal c.id)
    | _, _ => gact .keyConsumedNoop
  else if a.currentView = .ViewNetworks ∧
      a.networksView.currentTab = .NetworksContainersTab then
    match a.networksView.getSelectedInNetworkContainer, a.networksView.selectedNetwork with
    | some c, some _ => gact (.openDisconnectModal c.id)
    | _, _ => gact .keyConsumedNoop
  else delegateToCurrentView a

/-- The "r" case: restart container / compose project. -/
def routeRestartKey (a : RouterApp) : List Invocation :=
  if a.currentView = .ViewContainers then
    match a.containersView.getSelectedContainer with
    | some c => gact (.restartContainerOp c.id)
    | none => delegateToCurrentView a
  else if a.currentView = .ViewGroups ∧
      a.groupsView.currentTab = .GroupsContainersTab then
    match a.groupsView.getSelectedInGroupContainer with
    | some c => gact (.restartContainerOp c.id)
    | none => delegateToCurrentView a
  else if a.currentView = .ViewCompose then
    if a.composeView.viewingServices ∨ a.composeView.viewingContainers then
      match a.composeView.getSelectedContainer with
      | some c => gact (.restartContainerOp c.id)
      | none => delegateToCurrentView a
    else
      match a.composeView.getSelectedProject with
      | some p => gact (.restartProjectOp p.name)
      | none => delegateToCurrentView a
  else if a.currentView = .ViewNetworks ∧
      a.networksView.currentTab = .NetworksContainersTab then
    match a.networksView.getSelectedInNetworkContainer with
    | some c => gact (.restartContainerOp c.id)
    | none => delegateToCurrentView a
  else delegateToCurrentView a

/-- The "s" case: start container / group / compose project. -/
def routeStartKey (a : RouterApp) : List Invocation :=
  if a.currentView = .ViewContainers then
    match a.containersView.getSelectedContainer with
    | some c => gact (.startContainerOp c.id)
    | none => delegateToCurrentView a
  else if a.currentView = .ViewGroups ∧ a.groupsView.currentTab = .GroupsListTab then
    match a.groupsView.getSelectedGroup with
    | some g => gact (.startGroupOp g.id)
    | none => delegateToCurrentView a
  else if a.currentView = .ViewGroups ∧
      a.groupsView.currentTab = .GroupsContainersTab then
    match a.groupsView.getSelectedInGroupContainer with
    | some c => gact (.startContainerOp c.id)
    | none => delegateToCurrentView a
  else if a.currentView = .ViewCompose then
    if a.composeView.viewingServices ∨ a.composeView.viewingContainers then
      match a.composeView.getSelectedContainer with
      | some c => gact (.startContainerOp c.id)
      | none => delegateToCurrentView a
    else
      match a.composeView.getSelectedProject with
      | some p => gact (.startProjectOp p.name)
      | none => delegateToCurrentView a
  else if a.currentView = .ViewNetworks ∧
      a.networksView.currentTab = .NetworksContainersTab then
    match a.networksView.getSelectedInNetworkContainer with
    | some c => gact (.startContainerOp c.id)
    | none => delegateToCurrentView a
  else delegateToCurrentView a

/-- The "x" case: stop container / group / compose project. -/
def routeStopKey (a : RouterApp) : List Invocation :=
  if a.currentView = .ViewContainers then
    match a.containersView.getSelectedContainer with
    | some c => gact (.stopContainerOp c.id)
    | none => delegateToCurrentView a
  else if a.currentView = .ViewGroups ∧ a.groupsView.currentTab = .GroupsListTab then
    match a.groupsView.getSelectedGroup with
    | some g => gact (.stopGroupOp g.id)
    | none => delegateToCurrentView a
  else if a.currentView = .ViewGroups ∧
      a.groupsView.currentTab = .GroupsContainersTab then
    match a.groupsView.getSelectedInGroupContainer with
    | some c => gact (.stopContainerOp c.id)
    | none => delegateToCurrentView a
  else if a.currentView = .ViewCompose then
    if a.composeView.viewingServices ∨ a.composeView.viewingContainers then
      match a.composeView.getSelectedContainer with
      | some c => gact (.stopContainerOp c.id)
      | none => delegateToCurrentView a
    else
      match a.composeView.getSelectedProject with
      | some p => gact (.stopProjectOp p.name)
      | none => delegateToCurrentView a
  else if a.currentView = .ViewNetworks ∧
      a.networksView.currentTab = .NetworksContainersTab then
    match a.networksView.getSelectedInNetworkContainer with
    | some c => gact (.stopContainerOp c.id)
    | none => delegateToCurrentView a
  else delegateToCurrentView a

/-- Shared shape of the "l"/"t"/"e"/"v" cases: act on the selected container of
the containers view, the group containers tab, the compose drill-down, or the
network containers tab. -/
def routeContainerActionKey (a : RouterApp) (mk : String → GlobalAction) :
    List Invocation :=
  if a.currentView = .ViewContainers then
    match a.containersView.getSelectedContainer with
    | some c => gact (mk c.id)
    | none => delegateToCurrentView a
  else if a.currentView = .ViewGroups ∧
      a.groupsView.currentTab = .GroupsContainersTab then
    match a.groupsView.getSelectedInGroupContainer with
    | some c => gact (mk c.id)
    | none => delegateToCurrentView a
  else if a.currentView = .ViewCompose ∧
      (a.composeView.viewingServices ∨ a.composeView.viewingContainers) then
    match a.composeView.getSelectedContainer with
    | some c => gact (mk c.id)
    | none => delegateToCurrentView a
  else if a.currentView = .ViewNetworks ∧
      a.networksView.currentTab = .NetworksContainersTab then
    match a.networksView.getSelectedInNetworkContainer with
    | some c => gact (mk c.id)
    | none => delegateToCurrentView a
  else delegateToCurrentView a

/-- The "ctrl+s" case: save env vars and rebuild the container. -/
def routeSaveKey (a : RouterApp) : List Invocation :=
  if a.currentView = .ViewEnvVars ∧ a.envVarsModified then
    match a.pendingEnvContainer with
    | some _ =>
      gact (.recreateOp ((a.selectedContainer.map (fun c => c.id)).getD ""))
    | none => delegateToCurrentView a
  else delegateToCurrentView a

/-- The "d" case: delete with confirmation. -/
def routeDeleteKey (a : RouterApp) : List Invocation :=
  if a.currentView = .ViewContainers then
    match a.containersView.getSelectedContainer with
    | some c => gact (.openDeleteModal "container" c.id)
    | none => delegateToCurrentView a
  else if a.currentView = .ViewImages then
    match a.imagesView.getSelectedImage with
    | some i => gact (.openDeleteModal "image" i.id)
    | none => delegateToCurrentView a
  else if a.currentView = .ViewGroups ∧ a.groupsView.currentTab = .GroupsListTab then
    match a.groupsView.getSelectedGroup with
    | some g => gact (.openDeleteModal "group" g.id)
    | none => delegateToCurrentView a
  else if a.currentView = .ViewGroups ∧
      a.groupsView.currentTab = .GroupsContainersTab then
    match a.groupsView.getSelectedInGroupContainer with
    | some c => gact (.openDeleteModal "container" c.id)
    | none => delegateToCurrentView a
  else if a.currentView = .ViewVolumes then
    match a.volumesView.getSelectedVolume with
    | some vol => gact (.openDeleteModal "volume" vol.name)
    | none => delegateToCurrentView a
  else if a.currentView = .ViewCompose ∧ a.composeView.viewingContainers then
    match a.composeView.getSelectedContainer with
    | some c => gact (.openDeleteModal "container" c.id)
    | none => delegateToCurrentView a
  else if a.currentView = .ViewNetworks ∧
      a.networksView.currentTab = .NetworksContainersTab then
    match a.networksView.getSelectedInNetworkContainer with
    | some c => gact (.openDeleteModal "container" c.id)
    | none => delegateToCurrentView a
  else if a.currentView = .ViewNetworks ∧
      a.networksView.currentTab = .NetworksListTab then
    match a.networksView.getSelectedNetwork with
    | some net =>
      if net.isSystemNetwork then gact .systemNetworkDeleteError
      else gact (.openDeleteModal "network" net.id)
    | none => delegateToCurrentView a
  else delegateToCurrentView a

/-- The "p" case: pull image / prune volumes. -/
def routePruneKey (a : RouterApp) : List Invocation :=
  if a.currentView = .ViewImages then gact .openPullImageModal
  else if a.currentView = .ViewVolumes then gact .openPruneVolumesModal
  else delegateToCurrentView a

/-- The tea.KeyMsg branch of App.Update, as the sequence of sub-handler
invocations it performs: modal first, then the filter forward, then the global
keymap switch whose unhandled cases fall through to the view delegation. -/
def updateKey (a : RouterApp) (k : Key) : List Invocation :=
  -- Handle modal first if visible
  if a.modalVisible then [Invocation.modalUpdate]
  -- If any view is currently filtering, let the view handle all input
  else if activeViewFiltering a then
    match a.currentView with
    | .ViewContainers => [Invocation.filterForward .ViewContainers]
    | .ViewImages => [Invocation.filterForward .ViewImages]
    | .ViewGroups => [Invocation.filterForward .ViewGroups]
    | .ViewVolumes => [Invocation.filterForward .ViewVolumes]
    | .ViewCompose => [Invocation.filterForward .ViewCompose]
    | .ViewNetworks => [Invocation.filterForward .ViewNetworks]
    | _ => []
  else
    -- Global keybindings
    match k with
    | .ctrlC | .q => routeQuitKey a
    | .questionMark => gact .openAbout
    | .esc => routeEscKey a
    | .one => gact (.switchTo .ViewContainers)
    | .two => gact (.switchTo .ViewImages)
    | .three => gact (.switchTo .ViewGroups)
    | .four => gact (.switchTo .ViewVolumes)
    | .five => gact (.switchTo .ViewCompose)
    | .six => gact (.switchTo .ViewNetworks)
    | .seven => gact (.switchTo .ViewAbout)
    | .tab | .right => routeCycleKey a true
    | .shiftTab | .left => routeCycleKey a false
    | .n => routeNewKey a
    | .enter => routeEnterKey a
    | .u => routeUnlinkKey a
    | .r => routeRestartKey a
    | .s => routeStartKey a
    | .x => routeStopKey a
    | .l => routeContainerActionKey a GlobalAction.openLogs
    | .t => routeContainerActionKey a GlobalAction.openStats
    | .e => routeContainerActionKey a GlobalAction.execShell
    | .v => routeContainerActionKey a GlobalAction.loadContainerConfig
    | .ctrlS => routeSaveKey a
    | .d => routeDeleteKey a
    | .p => routePruneKey a
    | .other _ => delegateToCurrentView a

/-! ## Concrete fixtures for witnesses and counterexamples -/

/-- A group holding one container, as user configuration would create it. -/
def webGroup : Group :=
  { id := "g1", name := "web", description := "frontend containers",
    containerIDs := ["c1"], created := 0, modified := 0, color := "blue" }

/-- A persisted configuration holding `webGroup`. -/
def fixtureConfig : GroupConfig :=
  { version := "1.0", groups := [webGroup], lastModified := 0 }

/-- A freshly constructed groups view. -/
def emptyGroupsView : GroupsView :=
  { currentTab := .GroupsListTab, groups := [], allContainers := [], selectedGroup := none,
    groupsListIndex := 0, containersInGroupListIndex := 0, availableListIndex := 0,
    groupsListFiltering := false, containersInGroupListFiltering := false,
    availableListFiltering := false }

/-- A freshly constructed networks view. -/
def emptyNetworksView : NetworksView :=
  { currentTab := .NetworksListTab, networks := [], allContainers := [], selectedNetwork := none,
    networksListIndex := 0, containersInNetworkListIndex := 0, availableListIndex := 0,
    networksListFiltering := false, containersInNetworkListFiltering := false,
    availableListFiltering := false }

/-- A groups view drilled into `webGroup`'s containers tab. -/
def staleGroupsView : GroupsView :=
  { emptyGroupsView with
    currentTab := .GroupsContainersTab,
    groups := [webGroup],
    selectedGroup := some webGroup }

/-- A user-created (non-system) network. -/
def appNetwork : Network :=
  { id := "n1", name := "appnet", driver := "bridge", containers := [] }

/-- A networks view drilled into `appNetwork`. -/
def selectedNetworksView : NetworksView :=
  { emptyNetworksView with
    currentTab := .NetworksContainersTab,
    networks := [appNetwork],
    selectedNetwork := some appNetwork }

/-- A 64-character container id as the Docker daemon issues them. -/
def dockerID : String :=
  "4f5e6d7c8b9a0f1e2d3c4b5a69788796a5b4c3d2e1f00f1e2d3c4b5a69788796"

/-- An application model in its resting state on the containers view. -/
def fixtureApp : App :=
  { ready := true, statusMessage := "", errorMessage := "",
    currentView := .ViewContainers, containers := [],
    groupsView := emptyGroupsView, networksView := emptyNetworksView }

/-- A freshly constructed containers view. -/
def emptyContainersView : ContainersView :=
  { containers := [], listIndex := 0, filtering := false }

/-- A freshly constructed images view. -/
def emptyImagesView : ImagesView :=
  { images := [], listIndex := 0, filtering := false }

/-- A freshly constructed volumes view. -/
def emptyVolumesView : VolumesView :=
  { volumes := [], listIndex := 0, filtering := false }

/-- A freshly constructed compose view. -/
def emptyComposeView : ComposeView :=
  { projects := [], selectedProject := none, selectedService := none,
    viewingServices := false, viewingContainers := false,
    projectsListIndex := 0, servicesListIndex := 0, containersListIndex := 0,
    projectsListFiltering := false, servicesListFiltering := false,
    containersListFiltering := false }

/-- A router state without modal or filtering, on the given view. -/
def fixtureRouterApp (cv : ViewType) : RouterApp :=
  { modalVisible := false, currentView := cv, previousView := .ViewContainers,
    containersView := emptyContainersView, imagesView := emptyImagesView,
    groupsView := emptyGroupsView, volumesView := emptyVolumesView,
    composeView := emptyComposeView, networksView := emptyNetworksView,
    envVarsEditing := false, envVarsModified := false, pendingEnvContainer := none,
    selectedContainer := none }

/-- A two-container group with 13-character ids, and an operation failing for
the first of them, for exercising the batch executor. -/
def batchGroup : Group :=
  { id := "g3", name := "batch", description := "",
    containerIDs := ["aaaaaaaaaaaa1", "bbbbbbbbbbbb2"], created := 0, modified := 0,
    color := "green" }

/-- Configuration holding `batchGroup`. -/
def batchConfig : GroupConfig :=
  { version := "1.0", groups := [batchGroup], lastModified := 0 }

/-- An operation that fails for the first member of `batchGroup` only. -/
def batchOp : String → Option String :=
  fun id => if id = "aaaaaaaaaaaa1" then some "boom" else none

/-- Daemon replies where create succeeds and start fails. -/
def startFailOutcomes : RecreateOutcomes :=
  { stopErr := some "container already stopped", removeErr := none,
    createResult := .ok "abc123", connectErr := fun _ => none,
    startErr := some "driver failed programming external connectivity" }

/-- A minimal container configuration for the recreate workflow. -/
def plainConfig : ContainerFullConfig :=
  { name := "api", image := "api:latest", env := ["A=1"], networks := [] }

/-! ## Theorems -/

/-- Every data-priority schedule step is a legal step of the subscription
system. -/
theorem LogLoopStepDP.toStep {s t : LogLoop} (h : LogLoopStepDP s t) : LogLoopStep s t := by
  cases h with
  | emit n line h1 h2 h3 => exact LogLoopStep.emit s n line h1 h2 h3
  | closeChans h1 h2 => exact LogLoopStep.closeChans s h1 h2
  | deliverEntry line rest h1 h2 => exact LogLoopStep.deliverEntry s line rest h1 h2
  | deliverLogsClosedNil h1 h2 h3 => exact LogLoopStep.deliverLogsClosedNil s h1 h2 h3
  | deliverErrorClosedNil h1 h2 h3 _ => exact LogLoopStep.deliverErrorClosedNil s h1 h2 h3

/-- Members of the list produced by `replaceFirstGroup` are the stamped updated
group or members of the original list. -/
theorem mem_of_replaceFirstGroup {now : Nat} {updated : Group} {gs gs' : List Group}
    (h : replaceFirstGroup now updated gs = some gs') :
    ∀ g ∈ gs', g = { updated with modified := now } ∨ g ∈ gs := by
  induction gs generalizing gs' with
  | nil => simp [replaceFirstGroup] at h
  | cons hd tl ih =>
    rw [replaceFirstGroup] at h
    split at h
    · cases h
      intro g hg
      rcases List.mem_cons.mp hg with h1 | h1
      · exact Or.inl h1
      · exact Or.inr (List.mem_cons_of_mem _ h1)
    · rcases Option.map_eq_some'.mp h with ⟨tl', htl, hcons⟩
      subst hcons
      intro g hg
      rcases List.mem_cons.mp hg with h1 | h1
      · subst h1
        exact Or.inr (List.mem_cons_self _ _)
      · rcases ih htl g h1 with h2 | h2
        · exact Or.inl h2
        · exact Or.inr (List.mem_cons_of_mem _ h2)

/-- C10: AddContainerToGroup is idempotent and preserves uniqueness of
membership: adding a container id that is already in the group returns nil and
leaves the in-memory and persisted configuration untouched (no save is
invoked), and whenever every group's membership list is duplicate-free it stays
so after any call. -/
theorem addContainerToGroup_idempotent (config : GroupConfig) (now : Nat)
    (saveErr : Option String) (groupID containerID : String) :
    (∀ g, config.findGroup groupID = some g → containerID ∈ g.containerIDs →
      addContainerToGroup config now saveErr groupID containerID = (config, false, none)) ∧
    ((∀ g ∈ config.groups, g.containerIDs.Nodup) →
      ∀ g ∈ (addContainerToGroup config now saveErr groupID containerID).1.groups,
        g.containerIDs.Nodup) := by
  constructor
  · intro g hfind hmem
    unfold addContainerToGroup
    rw [hfind]
    simp [hmem]
  · intro hnodup g hg
    unfold addContainerToGroup at hg
    cases hfind : config.findGroup groupID with
    | none =>
      simp only [hfind] at hg
      exact hnodup g hg
    | some grp =>
      simp only [hfind] at hg
      by_cases hmem : containerID ∈ grp.containerIDs
      · simp only [if_pos hmem] at hg
        exact hnodup g hg
      · simp only [if_neg hmem] at hg
        have hgrpmem : grp ∈ config.groups := List.mem_of_find?_eq_some hfind
        simp only [GroupConfig.updateGroup] at hg
        cases hrep : replaceFirstGroup now
            { grp with containerIDs := grp.containerIDs ++ [containerID], modified := now }
            config.groups with
        | none =>
          simp only [hrep] at hg
          exact hnodup g hg
        | some gs =>
          simp only [hrep] at hg
          rcases mem_of_replaceFirstGroup hrep g hg with h1 | h1
          · subst h1
            rw [List.nodup_append]
            refine ⟨hnodup grp hgrpmem, List.nodup_singleton _, ?_⟩
            intro x hx hy
            rw [List.mem_singleton] at hy
            subst hy
            exact hmem hx
          · exact hnodup g h1

/-- C10 witness: adding the already-present container `c1` to `webGroup`
returns nil and leaves the configuration unchanged. -/
theorem addContainerToGroup_idempotent_witness :
    addContainerToGroup fixtureConfig 5 none "g1" "c1" = (fixtureConfig, false, none) :=
  (addContainerToGroup_idempotent fixtureConfig 5 none "g1" "c1").1 webGroup (by rfl) (by decide)

/-- C8: the stop step of RecreateContainer is best effort: the whole call is
insensitive to the stop outcome, and the remove call is attempted immediately
after the stop call in every run. -/
theorem recreateContainer_stop_best_effort (o : RecreateOutcomes)
    (cfg : ContainerFullConfig) (e e' : Option String) :
    recreateContainer { o with stopErr := e } cfg =
      recreateContainer { o with stopErr := e' } cfg ∧
    (recreateContainer o cfg).2.take 2 = [RStep.stop, RStep.remove] := by
  constructor
  · rfl
  · rcases o with ⟨se, re, cr, ce, ste⟩
    cases re with
    | some e0 => rfl
    | none =>
      cases cr with
      | error e0 => rfl
      | ok newID =>
        cases ste with
        | some e0 => rfl
        | none => rfl

/-- C4: when create succeeds and start fails, RecreateContainer returns the
newly created non-empty id alongside the start error; when remove or create
fails it returns an empty id with the error. -/
theorem recreateContainer_partial_result (o : RecreateOutcomes)
    (cfg : ContainerFullConfig) :
    (∀ newID e, o.removeErr = none → o.createResult = .ok newID → newID ≠ "" →
      o.startErr = some e →
      (recreateContainer o cfg).1 =
        (newID, some ("container created but failed to start: " ++ e)) ∧ newID ≠ "") ∧
    (∀ e, o.removeErr = some e →
      (recreateContainer o cfg).1 = ("", some ("failed to remove old container: " ++ e))) ∧
    (∀ e, o.removeErr = none → o.createResult = .error e →
      (recreateContainer o cfg).1 = ("", some ("failed to create new container: " ++ e))) := by
  refine ⟨?_, ?_, ?_⟩
  · intro newID e hrem hcr hne hst
    unfold recreateContainer
    rw [hrem, hcr, hst]
    exact ⟨rfl, hne⟩
  · intro e hrem
    unfold recreateContainer
    rw [hrem]
  · intro e hrem hcr
    unfold recreateContainer
    rw [hrem, hcr]

/-- C4 witness: with `startFailOutcomes` the call reports the new id "abc123"
together with the start error. -/
theorem recreateContainer_partial_result_witness :
    (recreateContainer startFailOutcomes plainConfig).1 =
      ("abc123", some ("container created but failed to start: " ++
        "driver failed programming external connectivity")) ∧ "abc123" ≠ "" :=
  (recreateContainer_partial_result startFailOutcomes plainConfig).1 "abc123"
    "driver failed programming external connectivity" rfl rfl (by decide) rfl

/-- When every failing result carries an id of at least 12 characters, the
error collection does not panic and produces exactly the failing results with
their truncated ids, in arrival order. -/
theorem collectErrs_eq_filterMap (l : List (String × Option String))
    (h : ∀ p ∈ l, p.2.isSome = true → 12 ≤ p.1.length) :
    collectErrs l =
      some (l.filterMap (fun p => p.2.map (fun e => (p.1.take 12, e)))) := by
  induction l with
  | nil => rfl
  | cons hd tl ih =>
    have htl : ∀ p ∈ tl, p.2.isSome = true → 12 ≤ p.1.length :=
      fun p hp => h p (List.mem_cons_of_mem _ hp)
    rcases hd with ⟨id, oe⟩
    cases oe with
    | none =>
      rw [collectErrs, ih htl]
      simp
    | some e =>
      have hlen : 12 ≤ id.length := h (id, some e) (List.mem_cons_self _ _) rfl
      rw [collectErrs, sliceTo12, if_pos hlen, ih htl]
      simp

/-- C3: ExecuteGroupOperation launches the operation for every container of the
group (no short-circuit), returns nil iff zero operations failed, and otherwise
returns one aggregate error naming exactly the failing containers (by their
12-character short id) with their causes — for every goroutine completion
order. -/
theorem executeGroupOperation_aggregate_outcome
    (config : GroupConfig) (groupID : String) (group : Group)
    (operation : String → Option String) (arrival : List String)
    (hfind : config.findGroup groupID = some group)
    (hperm : arrival.Perm group.containerIDs)
    (hlen : ∀ id ∈ group.containerIDs, (operation id).isSome = true → 12 ≤ id.length) :
    (executeGroupOperation config groupID operation arrival).1 = group.containerIDs ∧
    ((executeGroupOperation config groupID operation arrival).2 = .ok ↔
      ∀ id ∈ group.containerIDs, operation id = none) ∧
    (∀ errs, (executeGroupOperation config groupID operation arrival).2 = .failed errs →
      errs.Perm (group.containerIDs.filterMap
        (fun id => (operation id).map (fun e => (id.take 12, e))))) ∧
    ((¬ ∀ id ∈ group.containerIDs, operation id = none) →
      ∃ errs, (executeGroupOperation config groupID operation arrival).2 = .failed errs) := by
  have hmem : ∀ id ∈ arrival, id ∈ group.containerIDs := fun id hid => hperm.subset hid
  have hlen' : ∀ p ∈ arrival.map (fun id => (id, operation id)),
      p.2.isSome = true → 12 ≤ p.1.length := by
    intro p hp hs
    rcases List.mem_map.mp hp with ⟨id, hid, rfl⟩
    exact hlen id (hmem id hid) hs
  have hcol := collectErrs_eq_filterMap _ hlen'
  have hfm : (arrival.map (fun id => (id, operation id))).filterMap
      (fun p => p.2.map (fun e => (p.1.take 12, e))) =
      arrival.filterMap (fun id => (operation id).map (fun e => (id.take 12, e))) := by
    rw [List.filterMap_map]
    rfl
  rw [hfm] at hcol
  have hpermE : (arrival.filterMap
        (fun id => (operation id).map (fun e => (id.take 12, e)))).Perm
      (group.containerIDs.filterMap
        (fun id => (operation id).map (fun e => (id.take 12, e)))) :=
    hperm.filterMap _
  have hallnone : (arrival.filterMap
        (fun id => (operation id).map (fun e => (id.take 12, e))) = []) ↔
      ∀ id ∈ group.containerIDs, operation id = none := by
    rw [List.filterMap_eq_nil_iff]
    constructor
    · intro hnil id hid
      have := hnil id (hperm.mem_iff.mpr hid)
      rwa [Option.map_eq_none'] at this
    · intro hnone id hid
      rw [Option.map_eq_none']
      exact hnone id (hmem id hid)
  unfold executeGroupOperation
  rw [hfind]
  cases hE : arrival.filterMap (fun id => (operation id).map (fun e => (id.take 12, e))) with
  | nil =>
    rw [hE] at hcol
    simp only [hcol]
    refine ⟨?_, ?_, ?_, ?_⟩
    · trivial
    · exact iff_of_true trivial (hallnone.mp hE)
    · intro errs herrs
      simp at herrs
    · intro hnot
      exact absurd (hallnone.mp hE) hnot
  | cons e0 es =>
    rw [hE] at hcol
    simp only [hcol]
    have hne : ¬ ∀ id ∈ group.containerIDs, operation id = none := by
      intro hall
      have h2 := hE.symm.trans (hallnone.mpr hall)
      simp at h2
    refine ⟨?_, ?_, ?_, ?_⟩
    · trivial
    · constructor
      · intro hok
        exact absurd hok (by simp)
      · intro hall
        exact absurd hall hne
    · intro errs herrs
      have herrs' : e0 :: es = errs := by
        simpa using herrs
      subst herrs'
      exact hE ▸ hpermE
    · intro _
      exact ⟨e0 :: es, rfl⟩

/-- C3 witness: over `batchGroup` with the failing `batchOp` and reversed
completion order, both containers are launched and the outcome is a single
aggregate failure naming exactly the failing container. -/
theorem executeGroupOperation_witness :
    (executeGroupOperation batchConfig "g3" batchOp
      batchGroup.containerIDs.reverse).1 = batchGroup.containerIDs ∧
    (¬ (executeGroupOperation batchConfig "g3" batchOp
      batchGroup.containerIDs.reverse).2 = .ok) :=
  have h := executeGroupOperation_aggregate_outcome batchConfig "g3" batchGroup batchOp
    batchGroup.containerIDs.reverse (by rfl) (batchGroup.containerIDs.reverse_perm)
    (by decide)
  ⟨h.1, fun hok => by
    have := h.2.1.mp hok
    have hboom := this "aaaaaaaaaaaa1" (by decide)
    simp [batchOp] at hboom⟩

/-- Syncing container counts preserves network ids and keeps a selected network
whose id matches none of the stored networks. -/
theorem syncNetworkContainerCounts_missing_selected (v : NetworksView) (sel : Network)
    (hsel : v.selectedNetwork = some sel)
    (habsent : ∀ n ∈ v.networks, n.id ≠ sel.id) :
    v.syncNetworkContainerCounts.selectedNetwork = some sel ∧
    ∀ n ∈ v.syncNetworkContainerCounts.networks, n.id ≠ sel.id := by
  unfold NetworksView.syncNetworkContainerCounts
  by_cases hempty : v.networks.length = 0 ∨ v.allContainers.length = 0
  · rw [if_pos hempty]
    exact ⟨hsel, habsent⟩
  · rw [if_neg hempty]
    have hids : ∀ n ∈ v.networks.map (syncNetworkEntry v.allContainers),
        n.id ≠ sel.id := by
      intro n hn
      rcases List.mem_map.mp hn with ⟨n0, hn0, rfl⟩
      exact habsent n0 hn0
    have hfind : (v.networks.map (syncNetworkEntry v.allContainers)).find?
        (fun n => n.id == sel.id) = none := by
      rw [List.find?_eq_none]
      intro n hn
      simpa using hids n hn
    rw [hsel]
    simp only [hfind]
    exact ⟨trivial, hids⟩

/-- C1 counterexample: a groups refresh that removes the currently selected
group (here: the refreshed collection is empty) leaves the stale parent
reference in `selectedGroup` instead of clearing it. -/
theorem groupsView_setGroups_keeps_stale_selection :
    (staleGroupsView.setGroups []).selectedGroup = some webGroup ∧
    (∀ g ∈ ([] : List Group), g.id ≠ webGroup.id) :=
  ⟨rfl, by simp⟩

/-- C1 amended: NetworksView.SetNetworks re-resolves the selected network by id
and clears it when it disappeared from the refreshed collection, but
GroupsView.SetGroups never touches `selectedGroup`. -/
theorem networksView_reresolves_groupsView_does_not
    (v : NetworksView) (ns : List Network) (sel : Network)
    (hsel : v.selectedNetwork = some sel)
    (habsent : ∀ n ∈ ns, n.id ≠ sel.id) :
    (v.setNetworks ns).selectedNetwork = none ∧
    (∀ (w : GroupsView) (gs : List Group), (w.setGroups gs).selectedGroup = w.selectedGroup) := by
  constructor
  · have h := syncNetworkContainerCounts_missing_selected { v with networks := ns } sel hsel habsent
    have hfind : (NetworksView.syncNetworkContainerCounts { v with networks := ns }).networks.find?
        (fun n => n.id == sel.id) = none := by
      rw [List.find?_eq_none]
      intro n hn
      simpa using h.2 n hn
    simp only [NetworksView.setNetworks, h.1, hfind]
  · intro w gs
    rfl

/-- C1 witness: with `appNetwork` selected, refreshing to an empty network
collection clears the selection. -/
theorem networksView_reresolves_witness :
    (selectedNetworksView.setNetworks []).selectedNetwork = none :=
  (networksView_reresolves_groupsView_does_not selectedNetworksView [] appNetwork rfl
    (by simp)).1

/-- C2: a failed single-container stop sets the timed error banner and a
scheduled clear without quitting, but the ContainerRemovedMsg of a failed
removal is dropped by the reducer: no handler exists for it, so no banner is
set and no clear is scheduled (and the loop is not terminated either). -/
theorem containerRemoved_error_dropped :
    App.update fixtureApp (.containerRemoved dockerID (some "no such container")) =
      (fixtureApp, []) ∧
    (App.update fixtureApp
      (.containerStopped dockerID (some "no such container"))).1.errorMessage =
      "Failed to stop container: no such container" ∧
    (App.update fixtureApp (.containerStopped dockerID (some "no such container"))).2 =
      [Cmd.fetchContainers, Cmd.clearStatusAfter 2] ∧
    Cmd.quitProgram ∉
      (App.update fixtureApp (.containerRemoved dockerID (some "no such container"))).2 ∧
    Cmd.clearStatusAfter 2 ∉
      (App.update fixtureApp (.containerRemoved dockerID (some "no such container"))).2 := by
  refine ⟨rfl, rfl, rfl, ?_, ?_⟩ <;> simp [App.update]

/-- C5 counterexample: the startup failure to reach the Docker daemon does not
terminate the event loop (no quit command is scheduled, the app stays in its
not-ready state showing a banner), and the process exit code is 0 whenever
tea.Program.Run returns without error — so an unreachable daemon does not make
the process exit non-zero. -/
theorem startup_failure_does_not_exit_nonzero :
    Cmd.quitProgram ∉
      (App.update { fixtureApp with ready := false }
        (initDockerClientMsg (.error "docker daemon not reachable"))).2 ∧
    (App.update { fixtureApp with ready := false }
      (initDockerClientMsg (.error "docker daemon not reachable"))).1.ready = false ∧
    mainExitCode none = 0 := by
  refine ⟨?_, rfl, rfl⟩
  simp [App.update, initDockerClientMsg]

/-- C5 amended: a startup failure to reach the Docker daemon is surfaced as a
timed error banner while the loop keeps running (readiness unchanged, no quit);
the process exits non-zero exactly when the terminal program's Run fails, and 0
otherwise — in particular after the clean interactive quit that the global "q"
binding performs on a main view. -/
theorem startup_failure_banner_and_exit_codes (a : App) (e : String) (r : RouterApp) :
    (App.update a (initDockerClientMsg (.error e))).1.errorMessage =
      "failed to initialize Docker client: " ++ e ∧
    (App.update a (initDockerClientMsg (.error e))).2 = [Cmd.clearStatusAfter 3] ∧
    (App.update a (initDockerClientMsg (.error e))).1.ready = a.ready ∧
    mainExitCode none = 0 ∧
    (∀ err, mainExitCode (some err) = 1) ∧
    (r.modalVisible = false → activeViewFiltering r = false →
      r.currentView = .ViewContainers →
      updateKey r Key.q = [Invocation.globalAction .quitProgram]) := by
  refine ⟨rfl, rfl, rfl, rfl, fun _ => rfl, ?_⟩
  intro hm hf hv
  simp [updateKey, routeQuitKey, hm, hf, hv, gact]

/-- C5 witness: on the containers view, "q" is routed to the global quit. -/
theorem startup_failure_banner_witness :
    updateKey (fixtureRouterApp .ViewContainers) Key.q =
      [Invocation.globalAction .quitProgram] :=
  (startup_failure_banner_and_exit_codes fixtureApp "ping failed"
    (fixtureRouterApp .ViewContainers)).2.2.2.2.2 rfl rfl rfl

/-- Invariants of every run of the subscription system: the delivered, pending
and buffered records always account for all `n`; channels close only after the
producer has emitted everything; the error channel never carries data in a
clean run; and nothing ever cancels the producer. -/
theorem logLoop_count_inv {n : Nat} {s : LogLoop}
    (h : Relation.ReflTransGen LogLoopStep (LogLoop.init n) s) :
    s.delivered + s.producerPending + s.logsBuf.length = n ∧
    (s.logsClosed = true → s.producerPending = 0) ∧
    (s.errorClosed = true → s.producerPending = 0) ∧
    s.errorBuf = [] ∧
    s.producerCancelled = false := by
  induction h with
  | refl => simp [LogLoop.init]
  | tail hab hbc ih =>
    rcases ih with ⟨ih1, ih2, ih3, ih4, ih5⟩
    cases hbc with
    | emit m line h1 h2 h3 =>
      refine ⟨?_, ?_, ?_, ih4, ih5⟩
      · simp only [List.length_append, List.length_cons, List.length_nil]
        omega
      · intro hc
        have := ih2 hc
        omega
      · intro hc
        have := ih3 hc
        omega
    | closeChans h1 h2 =>
      exact ⟨ih1, fun _ => h1, fun _ => h1, ih4, ih5⟩
    | deliverEntry line rest h1 h2 =>
      refine ⟨?_, ih2, ih3, ih4, ih5⟩
      rw [h2] at ih1
      simp only [List.length_cons] at ih1
      dsimp only
      omega
    | deliverLogsClosedNil h1 h2 h3 =>
      exact ⟨ih1, ih2, ih3, ih4, ih5⟩
    | deliverErrorClosedNil h1 h2 h3 =>
      exact ⟨ih1, ih2, ih3, ih4, ih5⟩
    | leaveLogsView h1 =>
      exact ⟨ih1, ih2, ih3, ih4, ih5⟩

/-- Invariants of data-priority runs that stay on the logs view: additionally,
the wait command is only ever disarmed once the data channel is drained and the
producer has emitted everything. -/
theorem logLoopDP_inv {n : Nat} {s : LogLoop}
    (h : Relation.ReflTransGen LogLoopStepDP (LogLoop.init n) s) :
    s.delivered + s.producerPending + s.logsBuf.length = n ∧
    (s.logsClosed = true → s.producerPending = 0) ∧
    (s.errorClosed = true → s.producerPending = 0) ∧
    s.currentView = ViewType.ViewLogs ∧
    (s.armed = false → s.logsBuf = [] ∧ s.producerPending = 0) := by
  induction h with
  | refl => simp [LogLoop.init]
  | tail hab hbc ih =>
    rcases ih with ⟨ih1, ih2, ih3, ih4, ih5⟩
    cases hbc with
    | emit m line h1 h2 h3 =>
      refine ⟨?_, ?_, ?_, ih4, ?_⟩
      · simp only [List.length_append, List.length_cons, List.length_nil]
        omega
      · intro hc
        have := ih2 hc
        omega
      · intro hc
        have := ih3 hc
        omega
      · intro hf
        rcases ih5 hf with ⟨_, hp⟩
        omega
    | closeChans h1 h2 =>
      exact ⟨ih1, fun _ => h1, fun _ => h1, ih4, fun hf => (ih5 hf).imp id (fun h => h)⟩
    | deliverEntry line rest h1 h2 =>
      refine ⟨?_, ih2, ih3, ih4, ?_⟩
      · rw [h2] at ih1
        simp only [List.length_cons] at ih1
        dsimp only
        omega
      · intro hf
        rw [ih4] at hf
        simp at hf
    | deliverLogsClosedNil h1 h2 h3 =>
      exact ⟨ih1, ih2, ih3, ih4, fun _ => ⟨h2, ih2 h3⟩⟩
    | deliverErrorClosedNil h1 h2 h3 h4 =>
      exact ⟨ih1, ih2, ih3, ih4, fun _ => ⟨h4, ih3 h3⟩⟩

/-- C6 counterexample: for a producer that emits exactly one record and then
closes both channels cleanly, there is a legal run — the select of the final
wait command picks the closed error channel while the record is still buffered
— in which the wait yields no event and is never re-armed, so the reducer
receives 0, not 1, LogEntry events. -/
theorem logStream_can_drop_records :
    ¬ (∀ s : LogLoop, Relation.ReflTransGen LogLoopStep (LogLoop.init 1) s →
        s.armed = false → s.delivered = 1) := by
  intro hclaim
  have hreach : Relation.ReflTransGen LogLoopStep (LogLoop.init 1)
      { LogLoop.init 1 with
        producerPending := 0, logsBuf := ["record"], producerDone := true,
        logsClosed := true, errorClosed := true, armed := false } := by
    refine Relation.ReflTransGen.head
      (LogLoopStep.emit (LogLoop.init 1) 0 "record" rfl (by decide) rfl)
      (Relation.ReflTransGen.head
        (LogLoopStep.closeChans _ rfl rfl)
        (Relation.ReflTransGen.head
          (LogLoopStep.deliverErrorClosedNil _ rfl rfl rfl)
          Relation.ReflTransGen.refl))
  have hcontra := hclaim _ hreach rfl
  simp [LogLoop.init] at hcontra

/-- C6 amended: the reducer receives at most N LogEntry events, and exactly N in
every run in which the wait command takes a buffered record whenever one is
present (data-priority resolution of the closure race) and the user stays on
the logs view; a delivered record re-arms exactly one next wait, and a wait
that yields no event (closed channel) delivers nothing and is not re-armed. -/
theorem logStream_clean_close_behavior (n : Nat) (s t : LogLoop) :
    (Relation.ReflTransGen LogLoopStep (LogLoop.init n) s → s.delivered ≤ n) ∧
    (Relation.ReflTransGen LogLoopStepDP (LogLoop.init n) s → s.armed = false →
      s.delivered = n) ∧
    (LogLoopStep s t → s.currentView = ViewType.ViewLogs →
      t.delivered = s.delivered + 1 → t.armed = true) ∧
    (LogLoopStep s t → s.currentView = ViewType.ViewLogs → t.armed = false →
      t.delivered = s.delivered) := by
  refine ⟨?_, ?_, ?_, ?_⟩
  · intro h
    have := (logLoop_count_inv h).1
    omega
  · intro h hf
    have hinv := logLoopDP_inv h
    rcases hinv with ⟨h1, _, _, _, h5⟩
    rcases h5 hf with ⟨hbuf, hpend⟩
    rw [hbuf, hpend] at h1
    simpa using h1
  · intro hst hview hdel
    cases hst with
    | emit m line h1 h2 h3 => simp at hdel
    | closeChans h1 h2 => simp at hdel
    | deliverEntry line rest h1 h2 => simp [hview]
    | deliverLogsClosedNil h1 h2 h3 => simp at hdel
    | deliverErrorClosedNil h1 h2 h3 => simp at hdel
    | leaveLogsView h1 => simp at hdel
  · intro hst hview hf
    cases hst with
    | emit m line h1 h2 h3 => rfl
    | closeChans h1 h2 => rfl
    | deliverEntry line rest h1 h2 => simp [hview] at hf
    | deliverLogsClosedNil h1 h2 h3 => rfl
    | deliverErrorClosedNil h1 h2 h3 => rfl
    | leaveLogsView h1 => rfl

/-- C6 witness: for one record under the data-priority schedule — emit, close,
deliver (re-armed), wait yields no event — exactly 1 event is delivered. -/
theorem logStream_clean_close_witness :
    ({ LogLoop.init 1 with
      producerPending := 0, producerDone := true, logsClosed := true,
      errorClosed := true, delivered := 1, armed := false } : LogLoop).delivered = 1 :=
  (logStream_clean_close_behavior 1
    { LogLoop.init 1 with
      producerPending := 0, producerDone := true, logsClosed := true,
      errorClosed := true, delivered := 1, armed := false } (LogLoop.init 1)).2.1
    (Relation.ReflTransGen.head
      (LogLoopStepDP.emit (LogLoop.init 1) 0 "record" rfl (by decide) rfl)
      (Relation.ReflTransGen.head
        (LogLoopStepDP.closeChans _ rfl rfl)
        (Relation.ReflTransGen.head
          (LogLoopStepDP.deliverEntry _ "record" [] rfl rfl)
          (Relation.ReflTransGen.head
            (LogLoopStepDP.deliverLogsClosedNil _ rfl rfl rfl)
            Relation.ReflTransGen.refl))))
    rfl

/-- C7 counterexample: leaving the logs view does not tear the subscription
down — in a legal run the user leaves the logs view while the producer (never
cancelled: the stream context is `context.Background()`) keeps emitting, and
the still-outstanding wait command delivers a further stream event into the
loop after the view change. -/
theorem logStream_view_change_not_torn_down :
    ¬ (∀ s t : LogLoop, Relation.ReflTransGen LogLoopStep (LogLoop.init 2) s →
        s.currentView ≠ ViewType.ViewLogs → LogLoopStep s t →
        s.producerCancelled = true ∧ t.delivered = s.delivered) := by
  intro hclaim
  have hreach : Relation.ReflTransGen LogLoopStep (LogLoop.init 2)
      { LogLoop.init 2 with
        producerPending := 1, logsBuf := ["record"],
        currentView := ViewType.ViewContainers } := by
    refine Relation.ReflTransGen.head
      (LogLoopStep.emit (LogLoop.init 2) 1 "record" rfl (by decide) rfl)
      (Relation.ReflTransGen.head
        (LogLoopStep.leaveLogsView _ rfl)
        Relation.ReflTransGen.refl)
  have hstep : LogLoopStep
      { LogLoop.init 2 with
        producerPending := 1, logsBuf := ["record"],
        currentView := ViewType.ViewContainers }
      { LogLoop.init 2 with
        producerPending := 1, logsBuf := [],
        currentView := ViewType.ViewContainers, delivered := 1,
        armed := decide (ViewType.ViewContainers = ViewType.ViewLogs) } :=
    LogLoopStep.deliverEntry _ "record" [] rfl rfl
  have hcontra := hclaim _ _ hreach (by simp [LogLoop.init]) hstep
  have h1 := hcontra.1
  simp [LogLoop.init] at h1

/-- C7 amended: leaving the logs/stats view abandons the subscription without
tearing it down: the producer is never cancelled; the one wait command that was
outstanding at the view change may still deliver one stream event, after which
it is not re-armed; and once disarmed the loop receives no further stream
events from the subscription. -/
theorem logStream_abandoned_not_cancelled (n : Nat) (s t u : LogLoop) :
    (Relation.ReflTransGen LogLoopStep (LogLoop.init n) s →
      s.producerCancelled = false) ∧
    (s.currentView ≠ ViewType.ViewLogs → LogLoopStep s t →
      t.delivered = s.delivered + 1 → t.armed = false) ∧
    (s.armed = false → Relation.ReflTransGen LogLoopStep s u →
      u.delivered = s.delivered ∧ u.armed = false) := by
  refine ⟨?_, ?_, ?_⟩
  · intro h
    exact (logLoop_count_inv h).2.2.2.2
  · intro hview hst hdel
    cases hst with
    | emit m line h1 h2 h3 => simp at hdel
    | closeChans h1 h2 => simp at hdel
    | deliverEntry line rest h1 h2 => simpa using hview
    | deliverLogsClosedNil h1 h2 h3 => simp at hdel
    | deliverErrorClosedNil h1 h2 h3 => simp at hdel
    | leaveLogsView h1 => simp at hdel
  · intro hf hreach
    induction hreach with
    | refl => exact ⟨rfl, hf⟩
    | tail hab hbc ih =>
      rcases ih with ⟨ih1, ih2⟩
      cases hbc with
      | emit m line h1 h2 h3 => exact ⟨ih1, ih2⟩
      | closeChans h1 h2 => exact ⟨ih1, ih2⟩
      | deliverEntry line rest h1 h2 =>
        rw [h1] at ih2
        simp at ih2
      | deliverLogsClosedNil h1 h2 h3 =>
        rw [h1] at ih2
        simp at ih2
      | deliverErrorClosedNil h1 h2 h3 =>
        rw [h1] at ih2
        simp at ih2
      | leaveLogsView h1 => exact ⟨ih1, ih2⟩

/-- C7 witness: at the initial state of any subscription the producer is not
cancelled (and it never becomes so). -/
theorem logStream_abandoned_witness :
    (LogLoop.init 0).producerCancelled = false :=
  (logStream_abandoned_not_cancelled 0 (LogLoop.init 0) (LogLoop.init 0) (LogLoop.init 0)).1
    Relation.ReflTransGen.refl

/-- The trailing delegation either hands the key to the current view or, for
the About view only, drops it. -/
theorem delegateToCurrentView_cases (a : RouterApp) :
    delegateToCurrentView a = [Invocation.viewDelegate a.currentView] ∨
    (a.currentView = ViewType.ViewAbout ∧ delegateToCurrentView a = []) := by
  cases h : a.currentView <;> simp [delegateToCurrentView, h]

/-- With no modal and no filtering, the key routing ends in a global action, an
explicit delegation to the current view, or the trailing delegation switch. -/
theorem routeQuitKey_shape (a : RouterApp) :
    (∃ g, routeQuitKey a = [Invocation.globalAction g]) ∨
    routeQuitKey a = [Invocation.viewDelegate a.currentView] ∨
    routeQuitKey a = delegateToCurrentView a := by
  unfold routeQuitKey
  split <;> exact Or.inl ⟨_, rfl⟩

theorem routeEscKey_shape (a : RouterApp) :
    (∃ g, routeEscKey a = [Invocation.globalAction g]) ∨
    routeEscKey a = [Invocation.viewDelegate a.currentView] ∨
    routeEscKey a = delegateToCurrentView a := by
  unfold routeEscKey
  (repeat' split) <;>
    first
      | exact Or.inl ⟨_, rfl⟩
      | exact Or.inr (Or.inr rfl)
      | (refine Or.inr (Or.inl ?_); simp_all)

theorem routeCycleKey_shape (a : RouterApp) (forward : Bool) :
    (∃ g, routeCycleKey a forward = [Invocation.globalAction g]) ∨
    routeCycleKey a forward = [Invocation.viewDelegate a.currentView] ∨
    routeCycleKey a forward = delegateToCurrentView a := by
  unfold routeCycleKey
  (repeat' split) <;>
    first
      | exact Or.inl ⟨_, rfl⟩
      | exact Or.inr (Or.inr rfl)

theorem routeNewKey_shape (a : RouterApp) :
    (∃ g, routeNewKey a = [Invocation.globalAction g]) ∨
    routeNewKey a = [Invocation.viewDelegate a.currentView] ∨
    routeNewKey a = delegateToCurrentView a := by
  unfold routeNewKey
  (repeat' split) <;>
    first
      | exact Or.inl ⟨_, rfl⟩
      | exact Or.inr (Or.inr rfl)

theorem routeEnterKey_shape (a : RouterApp) :
    (∃ g, routeEnterKey a = [Invocation.globalAction g]) ∨
    routeEnterKey a = [Invocation.viewDelegate a.currentView] ∨
    routeEnterKey a = delegateToCurrentView a := by
  unfold routeEnterKey
  (repeat' split) <;>
    first
      | exact Or.inl ⟨_, rfl⟩
      | exact Or.inr (Or.inr rfl)

theorem routeUnlinkKey_shape (a : RouterApp) :
    (∃ g, routeUnlinkKey a = [Invocation.globalAction g]) ∨
    routeUnlinkKey a = [Invocation.viewDelegate a.currentView] ∨
    routeUnlinkKey a = delegateToCurrentView a := by
  unfold routeUnlinkKey
  (repeat' split) <;>
    first
      | exact Or.inl ⟨_, rfl⟩
      | exact Or.inr (Or.inr rfl)

theorem routeRestartKey_shape (a : RouterApp) :
    (∃ g, routeRestartKey a = [Invocation.globalAction g]) ∨
    routeRestartKey a = [Invocation.viewDelegate a.currentView] ∨
    routeRestartKey a = delegateToCurrentView a := by
  unfold routeRestartKey
  (repeat' split) <;>
    first
      | exact Or.inl ⟨_, rfl⟩
      | exact Or.inr (Or.inr rfl)

theorem routeStartKey_shape (a : RouterApp) :
    (∃ g, routeStartKey a = [Invocation.globalAction g]) ∨
    routeStartKey a = [Invocation.viewDelegate a.currentView] ∨
    routeStartKey a = delegateToCurrentView a := by
  unfold routeStartKey
  (repeat' split) <;>
    first
      | exact Or.inl ⟨_, rfl⟩
      | exact Or.inr (Or.inr rfl)

theorem routeStopKey_shape (a : RouterApp) :
    (∃ g, routeStopKey a = [Invocation.globalAction g]) ∨
    routeStopKey a = [Invocation.viewDelegate a.currentView] ∨
    routeStopKey a = delegateToCurrentView a := by
  unfold routeStopKey
  (repeat' split) <;>
    first
      | exact Or.inl ⟨_, rfl⟩
      | exact Or.inr (Or.inr rfl)

theorem routeContainerActionKey_shape (a : RouterApp) (mk : String → GlobalAction) :
    (∃ g, routeContainerActionKey a mk = [Invocation.globalAction g]) ∨
    routeContainerActionKey a mk = [Invocation.viewDelegate a.currentView] ∨
    routeContainerActionKey a mk = delegateToCurrentView a := by
  unfold routeContainerActionKey
  (repeat' split) <;>
    first
      | exact Or.inl ⟨_, rfl⟩
      | exact Or.inr (Or.inr rfl)

theorem routeSaveKey_shape (a : RouterApp) :
    (∃ g, routeSaveKey a = [Invocation.globalAction g]) ∨
    routeSaveKey a = [Invocation.viewDelegate a.currentView] ∨
    routeSaveKey a = delegateToCurrentView a := by
  unfold routeSaveKey
  (repeat' split) <;>
    first
      | exact Or.inl ⟨_, rfl⟩
      | exact Or.inr (Or.inr rfl)

theorem routeDeleteKey_shape (a : RouterApp) :
    (∃ g, routeDeleteKey a = [Invocation.globalAction g]) ∨
    routeDeleteKey a = [Invocation.viewDelegate a.currentView] ∨
    routeDeleteKey a = delegateToCurrentView a := by
  unfold routeDeleteKey
  (repeat' split) <;>
    first
      | exact Or.inl ⟨_, rfl⟩
      | exact Or.inr (Or.inr rfl)

theorem routePruneKey_shape (a : RouterApp) :
    (∃ g, routePruneKey a = [Invocation.globalAction g]) ∨
    routePruneKey a = [Invocation.viewDelegate a.currentView] ∨
    routePruneKey a = delegateToCurrentView a := by
  unfold routePruneKey
  (repeat' split) <;>
    first
      | exact Or.inl ⟨_, rfl⟩
      | exact Or.inr (Or.inr rfl)

theorem updateKey_global_shape (a : RouterApp) (k : Key)
    (hm : a.modalVisible = false) (hf : activeViewFiltering a = false) :
    (∃ g, updateKey a k = [Invocation.globalAction g]) ∨
    updateKey a k = [Invocation.viewDelegate a.currentView] ∨
    updateKey a k = delegateToCurrentView a := by
  unfold updateKey
  rw [hm, hf, if_neg Bool.false_ne_true, if_neg Bool.false_ne_true]
  cases k with
  | ctrlC => exact routeQuitKey_shape a
  | q => exact routeQuitKey_shape a
  | questionMark => exact Or.inl ⟨_, rfl⟩
  | esc => exact routeEscKey_shape a
  | one => exact Or.inl ⟨_, rfl⟩
  | two => exact Or.inl ⟨_, rfl⟩
  | three => exact Or.inl ⟨_, rfl⟩
  | four => exact Or.inl ⟨_, rfl⟩
  | five => exact Or.inl ⟨_, rfl⟩
  | six => exact Or.inl ⟨_, rfl⟩
  | seven => exact Or.inl ⟨_, rfl⟩
  | tab => exact routeCycleKey_shape a true
  | right => exact routeCycleKey_shape a true
  | shiftTab => exact routeCycleKey_shape a false
  | left => exact routeCycleKey_shape a false
  | n => exact routeNewKey_shape a
  | enter => exact routeEnterKey_shape a
  | u => exact routeUnlinkKey_shape a
  | r => exact routeRestartKey_shape a
  | s => exact routeStartKey_shape a
  | x => exact routeStopKey_shape a
  | l => exact routeContainerActionKey_shape a GlobalAction.openLogs
  | t => exact routeContainerActionKey_shape a GlobalAction.openStats
  | e => exact routeContainerActionKey_shape a GlobalAction.execShell
  | v => exact routeContainerActionKey_shape a GlobalAction.loadContainerConfig
  | ctrlS => exact routeSaveKey_shape a
  | d => exact routeDeleteKey_shape a
  | p => exact routePruneKey_shape a
  | other raw => exact Or.inr (Or.inr rfl)

/-- C9 amended: at most one consumer acts per key event, in the priority order
modal, then the filtering view, then the global keymap, then the current view's
nested handler; exactly one — except that with the About view active a key the
global keymap does not consume is dropped entirely (the delegation switch has
no About case). -/
theorem inputRouter_priority (a : RouterApp) (k : Key) :
    (updateKey a k).length ≤ 1 ∧
    (a.modalVisible = true → updateKey a k = [Invocation.modalUpdate]) ∧
    (a.modalVisible = false → activeViewFiltering a = true →
      updateKey a k = [Invocation.filterForward a.currentView]) ∧
    (a.modalVisible = false → activeViewFiltering a = false →
      ((∃ g, updateKey a k = [Invocation.globalAction g]) ∨
        updateKey a k = [Invocation.viewDelegate a.currentView] ∨
        (a.currentView = ViewType.ViewAbout ∧ updateKey a k = []))) ∧
    (a.currentView ≠ ViewType.ViewAbout → (updateKey a k).length = 1) := by
  by_cases hm : a.modalVisible = true
  · have hres : updateKey a k = [Invocation.modalUpdate] := by
      unfold updateKey
      rw [if_pos hm]
    refine ⟨by rw [hres]; simp, fun _ => hres, ?_, ?_, ?_⟩
    · intro hmf _
      rw [hmf] at hm
      exact absurd hm (by decide)
    · intro hmf _
      rw [hmf] at hm
      exact absurd hm (by decide)
    · intro _
      rw [hres]
      simp
  · have hm' : a.modalVisible = false := by
      cases h : a.modalVisible
      · rfl
      · exact absurd h hm
    by_cases hfil : activeViewFiltering a = true
    · have hres : updateKey a k = [Invocation.filterForward a.currentView] := by
        unfold updateKey
        rw [hm', if_neg Bool.false_ne_true, if_pos hfil]
        cases hcv : a.currentView <;> simp_all [activeViewFiltering]
      refine ⟨by rw [hres]; simp, fun hmt => absurd hmt hm, fun _ _ => hres, ?_, ?_⟩
      · intro _ hff
        rw [hff] at hfil
        exact absurd hfil (by decide)
      · intro _
        rw [hres]
        simp
    · have hf' : activeViewFiltering a = false := by
        cases h : activeViewFiltering a
        · rfl
        · exact absurd h hfil
      rcases updateKey_global_shape a k hm' hf' with ⟨g, hg⟩ | hv | hd
      · refine ⟨by rw [hg]; simp, fun hmt => absurd hmt hm,
          fun _ hff => absurd hff hfil, fun _ _ => Or.inl ⟨g, hg⟩, ?_⟩
        intro _
        rw [hg]
        simp
      · refine ⟨by rw [hv]; simp, fun hmt => absurd hmt hm,
          fun _ hff => absurd hff hfil, fun _ _ => Or.inr (Or.inl hv), ?_⟩
        intro _
        rw [hv]
        simp
      · rcases delegateToCurrentView_cases a with hdel | ⟨habout, hdel⟩
        · refine ⟨by rw [hd, hdel]; simp, fun hmt => absurd hmt hm,
            fun _ hff => absurd hff hfil,
            fun _ _ => Or.inr (Or.inl (hd.trans hdel)), ?_⟩
          intro _
          rw [hd, hdel]
          simp
        · refine ⟨by rw [hd, hdel]; simp, fun hmt => absurd hmt hm,
            fun _ hff => absurd hff hfil,
            fun _ _ => Or.inr (Or.inr ⟨habout, hd.trans hdel⟩), ?_⟩
          intro hne
          exact absurd habout hne

/-- C9 counterexample: with the About view active, no modal and no filtering, a
key outside the global keymap (here "z") is consumed by nobody — the delegation
switch has no About case — contradicting that exactly one consumer acts per
key event. -/
theorem aboutView_key_has_no_consumer :
    updateKey (fixtureRouterApp .ViewAbout) (Key.other "z") = [] ∧
    (fixtureRouterApp .ViewAbout).modalVisible = false ∧
    activeViewFiltering (fixtureRouterApp .ViewAbout) = false :=
  ⟨rfl, rfl, rfl⟩

/-- C9 witness: on the containers view an unbound key is delegated to exactly
one consumer, and with a modal visible the modal consumes the key. -/
theorem inputRouter_priority_witness :
    (updateKey (fixtureRouterApp .ViewContainers) (Key.other "j")).length = 1 ∧
    updateKey { fixtureRouterApp .ViewContainers with modalVisible := true } Key.d =
      [Invocation.modalUpdate] :=
  ⟨(inputRouter_priority (fixtureRouterApp .ViewContainers) (Key.other "j")).2.2.2.2
      (by decide),
   (inputRouter_priority { fixtureRouterApp .ViewContainers with modalVisible := true }
      Key.d).2.1 rfl⟩

end Doui
